import Mathlib

/-!
Verification development for the Youtube-Ideas content pipeline
(workflow manager, batch processor, quality control, schedule builder).

Each definition is a shallow embedding of the corresponding Python
function of the repository:

* scripts/workflow_manager.py : WorkflowStep, WorkflowConfig,
  WorkflowManager.execute_workflow, WorkflowManager.create_workflow_config,
  WorkflowManager.create_publishing_schedule
* scripts/batch_processor.py : BatchProcessor.process_single_script,
  BatchProcessor.process_single_idea, BatchProcessor.process_batch,
  BatchProcessor.generate_batch_report
* scripts/quality_control.py : the os.walk file collection of
  QualityControl.batch_evaluate_scripts

Modelling conventions:
* Python `datetime` dates are proleptic Gregorian dates; `Date.toOrdinal`
  is Python's `date.toordinal` (0001-01-01 has ordinal 1), and
  `timedelta(days = n)` subtraction is `n` steps of `Date.prevDay`.
  The `%Y-%m-%d` string round-trip is a bijection on valid dates, so
  date-valued strings are modelled as `Date` values directly.
* `datetime.now()` is modelled by threading an explicit clock value
  (a `Nat` timestamp) into every function whose Python body may read
  the clock.
* Exceptions are modelled with `Except String`; a caught exception is a
  consumed `Except.error` value.
* Calls into the generation providers (`generate_script`,
  `generate_content_idea`) and the step handlers of the workflow engine
  are abstracted as function parameters, as the spec treats them as
  black boxes; filesystem writes are modelled as succeeding.
-/

namespace YoutubeIdeas

/-! ## Dates (Python `datetime.date` semantics) -/

/-- A proleptic Gregorian calendar date, as manipulated by Python
`datetime.strptime(s, "%Y-%m-%d")`. -/
structure Date where
  year : Nat
  month : Nat
  day : Nat
deriving DecidableEq, Repr

/-- Gregorian leap-year rule, as in Python `calendar.isleap`. -/
def isLeapYear (y : Nat) : Bool :=
  (y % 4 == 0 && y % 100 != 0) || y % 400 == 0

/-- 1 in a leap year, 0 otherwise. -/
def leapBit (y : Nat) : Nat :=
  if isLeapYear y then 1 else 0

/-- Number of days of month `m` of year `y`. -/
def daysInMonth (y m : Nat) : Nat :=
  match m with
  | 1 => 31
  | 2 => 28 + leapBit y
  | 3 => 31
  | 4 => 30
  | 5 => 31
  | 6 => 30
  | 7 => 31
  | 8 => 31
  | 9 => 30
  | 10 => 31
  | 11 => 30
  | 12 => 31
  | _ => 0

/-- Number of days of year `y` that precede the first day of month `m`. -/
def daysBeforeMonth (y m : Nat) : Nat :=
  match m with
  | 1 => 0
  | 2 => 31
  | 3 => 59 + leapBit y
  | 4 => 90 + leapBit y
  | 5 => 120 + leapBit y
  | 6 => 151 + leapBit y
  | 7 => 181 + leapBit y
  | 8 => 212 + leapBit y
  | 9 => 243 + leapBit y
  | 10 => 273 + leapBit y
  | 11 => 304 + leapBit y
  | 12 => 334 + leapBit y
  | _ => 0

/-- Number of leap years among years `1 .. y-1`. -/
def leapsBefore (y : Nat) : Nat :=
  (y - 1) / 4 - (y - 1) / 100 + (y - 1) / 400

/-- Python `date.toordinal`: 0001-01-01 is day 1. -/
def Date.toOrdinal (d : Date) : Nat :=
  365 * (d.year - 1) + leapsBefore d.year + daysBeforeMonth d.year d.month + d.day

/-- The date is a real calendar date (Python `datetime` accepts it). -/
def Date.Valid (d : Date) : Prop :=
  1 ≤ d.year ∧ 1 ≤ d.month ∧ d.month ≤ 12 ∧ 1 ≤ d.day ∧ d.day ≤ daysInMonth d.year d.month

instance (d : Date) : Decidable d.Valid := by
  unfold Date.Valid
  infer_instance

/-- The calendar day before `d` (Python `d - timedelta(days = 1)`). -/
def Date.prevDay (d : Date) : Date :=
  if d.day > 1 then ⟨d.year, d.month, d.day - 1⟩
  else if d.month > 1 then ⟨d.year, d.month - 1, daysInMonth d.year (d.month - 1)⟩
  else ⟨d.year - 1, 12, 31⟩

/-- Python `d - timedelta(days = n)`. -/
def Date.subDays (d : Date) (n : Nat) : Date :=
  Date.prevDay^[n] d

theorem leapsBefore_succ (n : Nat) (h : 1 ≤ n) :
    leapsBefore (n + 1) = leapsBefore n + leapBit n := by
  unfold leapsBefore leapBit isLeapYear
  simp only [Nat.add_sub_cancel, Bool.or_eq_true, Bool.and_eq_true, beq_iff_eq,
    bne_iff_ne, ne_eq]
  split <;> omega

theorem daysInMonth_pos (y m : Nat) (h1 : 1 ≤ m) (h2 : m ≤ 12) :
    1 ≤ daysInMonth y m := by
  interval_cases m <;> simp only [daysInMonth] <;> omega

theorem prevDay_valid_ordinal (d : Date) (hv : d.Valid) (h2 : 2 ≤ d.toOrdinal) :
    d.prevDay.Valid ∧ d.prevDay.toOrdinal + 1 = d.toOrdinal := by
  obtain ⟨y, m, dd⟩ := d
  have hv2 : 1 ≤ y ∧ 1 ≤ m ∧ m ≤ 12 ∧ 1 ≤ dd ∧ dd ≤ daysInMonth y m := hv
  obtain ⟨hy, hm1, hm2, hd1, hd2⟩ := hv2
  have h2a : 2 ≤ 365 * (y - 1) + leapsBefore y + daysBeforeMonth y m + dd := h2
  by_cases hday : 1 < dd
  · have hp : Date.prevDay ⟨y, m, dd⟩ = ⟨y, m, dd - 1⟩ := by
      simp [Date.prevDay, hday]
    rw [hp]
    constructor
    · show 1 ≤ y ∧ 1 ≤ m ∧ m ≤ 12 ∧ 1 ≤ dd - 1 ∧ dd - 1 ≤ daysInMonth y m
      omega
    · show 365 * (y - 1) + leapsBefore y + daysBeforeMonth y m + (dd - 1) + 1
        = 365 * (y - 1) + leapsBefore y + daysBeforeMonth y m + dd
      omega
  · have hdd : dd = 1 := by omega
    subst hdd
    by_cases hmon : 1 < m
    · have hp : Date.prevDay ⟨y, m, 1⟩ = ⟨y, m - 1, daysInMonth y (m - 1)⟩ := by
        simp [Date.prevDay, hmon]
      rw [hp]
      constructor
      · show 1 ≤ y ∧ 1 ≤ m - 1 ∧ m - 1 ≤ 12 ∧ 1 ≤ daysInMonth y (m - 1) ∧
          daysInMonth y (m - 1) ≤ daysInMonth y (m - 1)
        have hpos : 1 ≤ daysInMonth y (m - 1) :=
          daysInMonth_pos y (m - 1) (by omega) (by omega)
        omega
      · show 365 * (y - 1) + leapsBefore y + daysBeforeMonth y (m - 1)
            + daysInMonth y (m - 1) + 1
          = 365 * (y - 1) + leapsBefore y + daysBeforeMonth y m + 1
        have key : daysBeforeMonth y (m - 1) + daysInMonth y (m - 1)
            = daysBeforeMonth y m := by
          interval_cases m <;> simp only [daysInMonth, daysBeforeMonth] <;> omega
        omega
    · have hmm : m = 1 := by omega
      subst hmm
      have hy2 : 2 ≤ y := by
        by_contra hcon
        have hy1 : y = 1 := by omega
        subst hy1
        simp [leapsBefore, daysBeforeMonth] at h2a
      have hp : Date.prevDay ⟨y, 1, 1⟩ = ⟨y - 1, 12, 31⟩ := by
        simp [Date.prevDay]
      rw [hp]
      constructor
      · show 1 ≤ y - 1 ∧ 1 ≤ 12 ∧ 12 ≤ 12 ∧ 1 ≤ 31 ∧ 31 ≤ daysInMonth (y - 1) 12
        simp only [daysInMonth]
        omega
      · show 365 * (y - 1 - 1) + leapsBefore (y - 1) + daysBeforeMonth (y - 1) 12
            + 31 + 1
          = 365 * (y - 1) + leapsBefore y + daysBeforeMonth y 1 + 1
        have hls : leapsBefore (y - 1 + 1) = leapsBefore (y - 1) + leapBit (y - 1) :=
          leapsBefore_succ (y - 1) (by omega)
        rw [show y - 1 + 1 = y by omega] at hls
        simp only [daysBeforeMonth]
        omega

theorem subDays_valid_ordinal (d : Date) (n : Nat) (hv : d.Valid)
    (h : n + 1 ≤ d.toOrdinal) :
    (d.subDays n).Valid ∧ (d.subDays n).toOrdinal + n = d.toOrdinal := by
  induction n with
  | zero => exact ⟨hv, rfl⟩
  | succ k ih =>
    have hk := ih (by omega)
    have hstep := prevDay_valid_ordinal (d.subDays k) hk.1 (by omega)
    have : d.subDays (k + 1) = (d.subDays k).prevDay := by
      simp [Date.subDays, Function.iterate_succ_apply']
    rw [this]
    exact ⟨hstep.1, by omega⟩

/-! ## Schedule builder
(`WorkflowManager.create_publishing_schedule`, workflow_manager.py:369-429) -/

/-- One day entry of a weekly content plan, as produced by
`ContentIdeaGenerator.generate_weekly_content_plan`
(content_idea_generator.py:529-540).  Only the fields read or copied by
the schedule builder are listed, plus `publishing_time`, the plan's own
suggested publish time. -/
structure ContentItem where
  suggested_title : String
  pillar : String
  content_type : String
  video_length : String
  day : String
  date : Date
  publishing_time : String
  secondary_focus : String
deriving DecidableEq, Repr

/-- A weekly content plan.  `content_schedule` is a Python dict keyed by
weekday name, modelled as an insertion-ordered association list. -/
structure WeeklyPlan where
  week_start : Date
  week_end : Date
  content_schedule : List (String × ContentItem)
deriving DecidableEq, Repr

/-- One value of `schedule["publishing_schedule"]`. -/
structure ScheduleEntry where
  date : Date
  time : String
  title : String
  pillar : String
  content_type : String
  video_length : String
  status : String
deriving DecidableEq, Repr

/-- One value of `schedule["content_calendar"]`. -/
structure CalendarEntry where
  day : String
  time : String
  title : String
  pillar : String
  content_type : String
  video_length : String
deriving DecidableEq, Repr

/-- One element of `schedule["reminders"]`. -/
structure Reminder where
  date : Date
  type : String
  content : String
  days_until : Int
deriving DecidableEq, Repr

/-- The value returned by `create_publishing_schedule`.  The two dicts are
modelled as insertion-ordered association lists. -/
structure Schedule where
  week_start : Date
  week_end : Date
  publishing_schedule : List (String × ScheduleEntry)
  content_calendar : List (Date × CalendarEntry)
  reminders : List Reminder
deriving DecidableEq, Repr

/-- The `publish_times` dict of `create_publishing_schedule`
(workflow_manager.py:380-388), with its `.get(day, "14:00")` default. -/
def publishTimes (day : String) : String :=
  if day = "monday" then "09:00"
  else if day = "tuesday" then "10:00"
  else if day = "wednesday" then "14:00"
  else if day = "thursday" then "11:00"
  else if day = "friday" then "15:00"
  else if day = "saturday" then "10:00"
  else if day = "sunday" then "16:00"
  else "14:00"

/-- The dict assigned to `schedule["publishing_schedule"][day]`
(workflow_manager.py:394-402). -/
def scheduleEntryFor (day : String) (content : ContentItem) : ScheduleEntry :=
  { date := content.date
    time := publishTimes day
    title := content.suggested_title
    pillar := content.pillar
    content_type := content.content_type
    video_length := content.video_length
    status := "scheduled" }

/-- The dict assigned to `schedule["content_calendar"][publish_date]`
(workflow_manager.py:405-412). -/
def calendarEntryFor (day : String) (content : ContentItem) : CalendarEntry :=
  { day := day
    time := publishTimes day
    title := content.suggested_title
    pillar := content.pillar
    content_type := content.content_type
    video_length := content.video_length }

/-- The three reminders appended for one day entry
(workflow_manager.py:414-427): dates publish − 3 days, publish − 1 day and
the publish date itself, each with
`days_until = (publish_date − reminder_date).days`. -/
def remindersFor (content : ContentItem) : List Reminder :=
  let p := content.date
  [ { date := p.subDays 3
      type := "publishing_reminder"
      content := content.suggested_title
      days_until := (p.toOrdinal : Int) - ((p.subDays 3).toOrdinal : Int) },
    { date := p.subDays 1
      type := "publishing_reminder"
      content := content.suggested_title
      days_until := (p.toOrdinal : Int) - ((p.subDays 1).toOrdinal : Int) },
    { date := p
      type := "publishing_reminder"
      content := content.suggested_title
      days_until := (p.toOrdinal : Int) - (p.toOrdinal : Int) } ]

/-- `WorkflowManager.create_publishing_schedule`
(workflow_manager.py:369-429).  The `now` parameter is the ambient clock
(every clock-reading Python function in this development receives it); the
body of the source function never calls `datetime.now()`, so the clock is
never consulted.

The source's single loop performs one dict assignment into
`publishing_schedule`, one into `content_calendar` and three list appends
to `reminders` per day entry; with pairwise distinct keys (a Python dict
iteration yields each key once) the dict assignments are exactly the
association-list appends below, so the loop is split into three maps. -/
def create_publishing_schedule (_now : Nat) (weekly_plan : WeeklyPlan) : Schedule :=
  { week_start := weekly_plan.week_start
    week_end := weekly_plan.week_end
    publishing_schedule :=
      weekly_plan.content_schedule.map (fun dc => (dc.1, scheduleEntryFor dc.1 dc.2))
    content_calendar :=
      weekly_plan.content_schedule.map (fun dc => (dc.2.date, calendarEntryFor dc.1 dc.2))
    reminders :=
      weekly_plan.content_schedule.flatMap (fun dc => remindersFor dc.2) }

/-! ## Workflow engine (`WorkflowManager`, workflow_manager.py) -/

/-- The `WorkflowStep` enum (workflow_manager.py:26-33). -/
inductive WorkflowStep where
  | generate_ideas
  | generate_scripts
  | quality_check
  | generate_metadata
  | batch_process
  | create_schedule
deriving DecidableEq, Repr

/-- `step.value`: the string payload of each enum member. -/
def WorkflowStep.value : WorkflowStep → String
  | .generate_ideas => "generate_ideas"
  | .generate_scripts => "generate_scripts"
  | .quality_check => "quality_check"
  | .generate_metadata => "generate_metadata"
  | .batch_process => "batch_process"
  | .create_schedule => "create_schedule"

/-- The parsed `argparse.Namespace` of workflow_manager.py:479-506.
`store_true` flags are `Bool`; arguments without a default are
`Option`-valued (absent = `None`); `output_dir` keeps its parser default
as a plain string (`args.output_dir or ...` additionally treats the empty
string as falsy). -/
structure Args where
  generate_ideas : Bool
  generate_scripts : Bool
  quality_check : Bool
  generate_metadata : Bool
  batch_process : Bool
  create_schedule : Bool
  pillar : Option String
  category : Option String
  subcategory : Option String
  baby_age : String
  theme_based : Bool
  weekly_plan : Bool
  start_date : Option Date
  idea_count : Nat
  script_count : Nat
  batch_file : Option String
  script_dir : Option String
  output_dir : String
  continue_on_error : Bool
  log_level : String
  dry_run : Bool
deriving DecidableEq, Repr

/-- The `WorkflowConfig` dataclass (workflow_manager.py:35-43).
`input_params` is the `vars(args)` mapping, i.e. the namespace itself. -/
structure WorkflowConfig where
  steps : List WorkflowStep
  input_params : Args
  output_dir : String
  continue_on_error : Bool
  log_level : String
  dry_run : Bool
deriving DecidableEq, Repr

/-- The fields declared by the `WorkflowConfig` dataclass, in declaration
order (workflow_manager.py:38-43); its generated `__init__` accepts
exactly these keywords. -/
def workflowConfigFields : List String :=
  ["steps", "input_params", "output_dir", "continue_on_error", "log_level", "dry_run"]

/-- Python keyword-call semantics for a generated dataclass `__init__`:
the first passed keyword that is not a declared field raises `TypeError`. -/
def dataclassKeywordCheck (declaredFields passedKeywords : List String) :
    Except String Unit :=
  match passedKeywords.find? (fun k => !(declaredFields.contains k)) with
  | some k => Except.error ("TypeError: unexpected keyword argument " ++ k)
  | none => Except.ok ()

/-- The step-selection logic of `create_workflow_config`
(workflow_manager.py:95-117): one step per set flag, in the fixed textual
order, with the four-step default when no flag is set. -/
def selectSteps (args : Args) : List WorkflowStep :=
  let steps :=
    (if args.generate_ideas then [WorkflowStep.generate_ideas] else [])
    ++ (if args.generate_scripts then [WorkflowStep.generate_scripts] else [])
    ++ (if args.quality_check then [WorkflowStep.quality_check] else [])
    ++ (if args.generate_metadata then [WorkflowStep.generate_metadata] else [])
    ++ (if args.batch_process then [WorkflowStep.batch_process] else [])
    ++ (if args.create_schedule then [WorkflowStep.create_schedule] else [])
  if steps = [] then
    [WorkflowStep.generate_ideas, WorkflowStep.generate_scripts,
     WorkflowStep.quality_check, WorkflowStep.generate_metadata]
  else steps

/-- `WorkflowManager.create_workflow_config` (workflow_manager.py:93-126).
The source calls the dataclass constructor
`WorkflowConfig(steps=..., input_vars=vars(args), output_dir=...,
continue_on_error=..., log_level=..., dry_run=...)`; the keyword
`input_vars` is checked against the declared fields (among which the
parameter mapping is named `input_params`), and the record after the
check is the construction that would be performed if every keyword were
accepted. -/
def create_workflow_config (args : Args) : Except String WorkflowConfig := do
  let steps := selectSteps args
  let _ ← dataclassKeywordCheck workflowConfigFields
    ["steps", "input_vars", "output_dir", "continue_on_error", "log_level", "dry_run"]
  pure
    { steps := steps
      input_params := args
      output_dir := if args.output_dir = "" then "generated-content" else args.output_dir
      continue_on_error := args.continue_on_error
      log_level := args.log_level
      dry_run := args.dry_run }

/-- The fields of `self.workflow_state` managed by the
`execute_workflow` loop itself (workflow_manager.py:59-67, 128-182).
`step_results` holds the `f"{step.value}_results"` assignments; the
fields written only inside the step handlers (`generated_files`,
`quality_results`, `metadata_results`) are folded into the abstract
handler results. -/
structure WorkflowState (α : Type) where
  start_time : Option Nat
  end_time : Option Nat
  completed_steps : List String
  failed_steps : List (String × String)
  step_results : List (String × α)
deriving DecidableEq, Repr

/-- The empty workflow state built by `WorkflowManager.__init__`. -/
def initialState (α : Type) : WorkflowState α :=
  { start_time := none
    end_time := none
    completed_steps := []
    failed_steps := []
    step_results := [] }

/-- The `for step in workflow_config.steps` loop of `execute_workflow`
(workflow_manager.py:136-172).  `handler` abstracts the dispatch to the
six `execute_*` step methods; a raised step exception is an
`Except.error`.  On success the step name is appended to
`completed_steps` and the result stored (every handler returns a
non-empty, hence truthy, dict); on failure the `(step, error)` record is
appended to `failed_steps` and, when `continue_on_error` is false, the
exception is re-raised, ending the loop with the pending error. -/
def runSteps (handler : WorkflowStep → Except String α) (coe : Bool) :
    List WorkflowStep → WorkflowState α → WorkflowState α × Option String
  | [], st => (st, none)
  | step :: rest, st =>
    match handler step with
    | Except.ok r =>
      runSteps handler coe rest
        { st with
          completed_steps := st.completed_steps ++ [step.value]
          step_results := st.step_results ++ [(step.value ++ "_results", r)] }
    | Except.error e =>
      let st2 := { st with failed_steps := st.failed_steps ++ [(step.value, e)] }
      if coe then runSteps handler coe rest st2 else (st2, some e)

/-- `WorkflowManager.execute_workflow` (workflow_manager.py:128-182).
Records `start_time`, runs the step loop, and records `end_time` both on
normal completion and in the `except` handler before re-raising; the
second component is the exception propagated to the caller (`none` when
the state is returned normally). -/
def execute_workflow (handler : WorkflowStep → Except String α)
    (workflow_config : WorkflowConfig) (startClock endClock : Nat)
    (st0 : WorkflowState α) : WorkflowState α × Option String :=
  let st1 := { st0 with start_time := some startClock }
  match runSteps handler workflow_config.continue_on_error workflow_config.steps st1 with
  | (st, none) => ({ st with end_time := some endClock }, none)
  | (st, some e) => ({ st with end_time := some endClock }, some e)

/-- `True` exactly when the handler of `s` signals failure. -/
def stepFails (handler : WorkflowStep → Except String α) (s : WorkflowStep) : Bool :=
  match handler s with
  | Except.ok _ => false
  | Except.error _ => true

/-! ## Batch processor (`BatchProcessor`, batch_processor.py) -/

/-- One work item of a batch configuration (a JSON object); absent keys
are `none`. -/
structure WorkItem where
  title : Option String
  pillar : Option String
  category : Option String
  subcategory : Option String
  baby_age : Option String
  theme_based : Option Bool
  filename : Option String
  custom_params : List (String × String)
deriving DecidableEq, Repr

/-- The per-item result dict built by `process_single_script` /
`process_single_idea` (batch_processor.py:94-114, 147-167). -/
structure BatchResult where
  status : String
  item : WorkItem
  filename : Option String
  filepath : Option String
  timestamp : Nat
  message : String
deriving DecidableEq, Repr

/-- `os.path.join` on two components. -/
def osJoin (a b : String) : String := a ++ "/" ++ b

/-- Python `item[key]`: a missing key raises `KeyError`. -/
def dictGet (o : Option α) (key : String) : Except String α :=
  match o with
  | some v => Except.ok v
  | none => Except.error ("KeyError: " ++ key)

/-- The `try` body of `BatchProcessor.process_single_script`
(batch_processor.py:64-103).  `gen` abstracts
`VideoScriptGenerator.generate_script` (pillar, category, subcategory,
baby_age, custom_params); filesystem writes are modelled as succeeding.
Any raised exception (missing required item key, generator failure) is
the error outcome. -/
def scriptAttempt
    (gen : String → String → String → String → List (String × String) →
      Except String σ)
    (now : Nat) (item : WorkItem) (index : Nat) : Except String String := do
  let pillar ← dictGet item.pillar "pillar"
  let category ← dictGet item.category "category"
  let subcategory ← dictGet item.subcategory "subcategory"
  let _script ← gen pillar category subcategory (item.baby_age.getD "8 months")
    item.custom_params
  let filename :=
    match item.filename with
    | some f =>
      if f ≠ "" then (if f.endsWith ".json" then f else f ++ ".json")
      else "script_" ++ toString (index + 1) ++ "_" ++ toString now ++ ".json"
    | none => "script_" ++ toString (index + 1) ++ "_" ++ toString now ++ ".json"
  Except.ok filename

/-- The `match` wrapper of `process_single_script`
(batch_processor.py:94-114): any exception of the try body becomes the
error result dict. -/
def process_single_script
    (gen : String → String → String → String → List (String × String) →
      Except String σ)
    (output_dir : String) (now : Nat) (item : WorkItem) (index : Nat) :
    BatchResult :=
  match scriptAttempt gen now item index with
  | Except.ok filename =>
    { status := "success"
      item := item
      filename := some filename
      filepath := some (osJoin output_dir filename)
      timestamp := now
      message := "Script generated successfully" }
  | Except.error e =>
    { status := "error"
      item := item
      filename := none
      filepath := none
      timestamp := now
      message := "Error processing item: " ++ e }

/-- The `try` body of `BatchProcessor.process_single_idea`
(batch_processor.py:118-156).  `ideaGen` abstracts
`ContentIdeaGenerator.generate_content_idea`; its taxonomy keys are read
with `.get` (optional). -/
def ideaAttempt
    (ideaGen : Option String → Option String → Option String → Bool →
      Except String ι)
    (now : Nat) (item : WorkItem) (index : Nat) : Except String String := do
  let _idea ← ideaGen item.pillar item.category item.subcategory
    (item.theme_based.getD false)
  let filename :=
    match item.filename with
    | some f =>
      if f ≠ "" then (if f.endsWith ".json" then f else f ++ ".json")
      else "idea_" ++ toString (index + 1) ++ "_" ++ toString now ++ ".json"
    | none => "idea_" ++ toString (index + 1) ++ "_" ++ toString now ++ ".json"
  Except.ok filename

/-- The `match` wrapper of `process_single_idea`
(batch_processor.py:147-167). -/
def process_single_idea
    (ideaGen : Option String → Option String → Option String → Bool →
      Except String ι)
    (output_dir : String) (now : Nat) (item : WorkItem) (index : Nat) :
    BatchResult :=
  match ideaAttempt ideaGen now item index with
  | Except.ok filename =>
    { status := "success"
      item := item
      filename := some filename
      filepath := some (osJoin output_dir filename)
      timestamp := now
      message := "Idea generated successfully" }
  | Except.error e =>
    { status := "error"
      item := item
      filename := none
      filepath := none
      timestamp := now
      message := "Error generating idea: " ++ e }

/-- A batch configuration dict (the JSON document loaded by
`load_batch_config`); absent optional keys are `none`. -/
structure BatchConfigDict where
  items : Option (List WorkItem)
  type : Option String
  max_workers : Option Nat
  continue_on_error : Option Bool
  output_dir : String
deriving DecidableEq, Repr

/-- The result-collection loop of `process_batch`
(batch_processor.py:198-239).  The thread pool delivers one result per
submitted item in a nondeterministic completion order; it is modelled at
the `max_workers = 1` schedule, where completion order is submission
order.  A success (or, with `continue_on_error`, an error) result is
appended and collection continues; an error result with
`continue_on_error` false cancels the remaining futures and breaks. -/
def collectResults (processor : WorkItem → Nat → BatchResult) (coe : Bool) :
    List (Nat × WorkItem) → List BatchResult
  | [] => []
  | (i, item) :: rest =>
    let r := processor item i
    if r.status = "success" then r :: collectResults processor coe rest
    else if coe then r :: collectResults processor coe rest
    else [r]

/-- `BatchProcessor.process_batch` (batch_processor.py:169-241): validate
the configuration (items key present and non-empty, known process type,
defaulting to scripts), then process every item.  The quote marks of the
source's error strings are omitted. -/
def process_batch
    (gen : String → String → String → String → List (String × String) →
      Except String σ)
    (ideaGen : Option String → Option String → Option String → Bool →
      Except String ι)
    (now : Nat) (batch_config : BatchConfigDict) :
    Except String (List BatchResult) := do
  let items ←
    match batch_config.items with
    | none => Except.error "ValueError: Batch configuration must contain items key"
    | some its => Except.ok its
  if items = [] then
    Except.error "ValueError: Batch configuration must contain at least one item"
  else do
    let process_type := batch_config.type.getD "scripts"
    let processor ←
      if process_type = "scripts" then
        Except.ok (process_single_script gen batch_config.output_dir now)
      else if process_type = "ideas" then
        Except.ok (process_single_idea ideaGen batch_config.output_dir now)
      else
        Except.error ("ValueError: Unknown process type: " ++ process_type)
    let coe := batch_config.continue_on_error.getD true
    Except.ok (collectResults processor coe items.enum)

/-- `batch_summary` of the batch report (batch_processor.py:255-261).
Python float arithmetic on the success rate is modelled as exact
rational arithmetic. -/
structure BatchSummary where
  total_items : Nat
  successful_items : Nat
  failed_items : Nat
  success_rate : ℚ
  processing_time : Nat
deriving DecidableEq, Repr

/-- `error_summary` of the batch report (batch_processor.py:265-268). -/
structure ErrorSummary where
  error_count : Nat
  error_messages : List String
deriving DecidableEq, Repr

/-- The batch report dict (batch_processor.py:254-269). -/
structure BatchReport where
  batch_summary : BatchSummary
  successful_results : List BatchResult
  failed_results : List BatchResult
  file_list : List String
  error_summary : ErrorSummary
deriving DecidableEq, Repr

/-- Python truthiness of an optional string (`if r["filename"]`). -/
def truthyStr : Option String → Bool
  | some s => !(s == "")
  | none => false

/-- `BatchProcessor.generate_batch_report` (batch_processor.py:243-271).
`list(set(...))` is modelled as `List.dedup` (CPython set iteration
order is unspecified). -/
def generate_batch_report (now : Nat) (results : List BatchResult) : BatchReport :=
  let total_items := results.length
  let successful_items := (results.filter (fun r => r.status == "success")).length
  let failed_items := total_items - successful_items
  let successful_results := results.filter (fun r => r.status == "success")
  let failed_results := results.filter (fun r => r.status == "error")
  { batch_summary :=
      { total_items := total_items
        successful_items := successful_items
        failed_items := failed_items
        success_rate :=
          if total_items > 0 then ((successful_items : ℚ) / (total_items : ℚ)) * 100
          else 0
        processing_time := now }
    successful_results := successful_results
    failed_results := failed_results
    file_list :=
      (successful_results.filter (fun r => truthyStr r.filename)).filterMap
        (fun r => r.filename)
    error_summary :=
      { error_count := failed_results.length
        error_messages := (failed_results.map (fun r => r.message)).dedup } }

/-! ## Quality-control file collection
(`QualityControl.batch_evaluate_scripts`, quality_control.py:467-482) -/

/-- A directory tree: the children of a directory are files and
subdirectories in listing order. -/
inductive FileTree where
  | file (name : String)
  | dir (name : String) (children : List FileTree)
deriving Repr

/-- The names of the plain files among `entries` (the `files` component
`os.walk` yields for the directory holding `entries`). -/
def fileNames (entries : List FileTree) : List String :=
  entries.filterMap (fun t =>
    match t with
    | FileTree.file n => some n
    | FileTree.dir _ _ => none)

/-- The `.json` files directly in the directory at `dirPath`, joined with
it — one `os.walk` iteration of the collection loop. -/
def directJson (dirPath : String) (entries : List FileTree) : List String :=
  ((fileNames entries).filter (fun f => f.endsWith ".json")).map
    (fun f => osJoin dirPath f)

/-- The contribution of the subdirectories among `entries` to the
top-down `os.walk` traversal rooted at `dirPath`. -/
def walkSub (dirPath : String) : List FileTree → List String
  | [] => []
  | FileTree.file _ :: rest => walkSub dirPath rest
  | FileTree.dir n c :: rest =>
    (directJson (osJoin dirPath n) c ++ walkSub (osJoin dirPath n) c)
      ++ walkSub dirPath rest

/-- The `json_files` list built by `batch_evaluate_scripts`
(quality_control.py:476-480): every file yielded by
`os.walk(script_dir)` whose name ends with `.json`, joined with the
directory that yields it; this is the list of files the function then
evaluates. -/
def batchEvaluateJsonFiles (script_dir : String) (entries : List FileTree) :
    List String :=
  directJson script_dir entries ++ walkSub script_dir entries

/-- The spec's description of the file set: every `.json` file anywhere
in the directory tree rooted at `dirPath`, collected node by node. -/
def allJsonIn (dirPath : String) : List FileTree → List String
  | [] => []
  | FileTree.file f :: rest =>
    (if f.endsWith ".json" then [osJoin dirPath f] else []) ++ allJsonIn dirPath rest
  | FileTree.dir n c :: rest =>
    allJsonIn (osJoin dirPath n) c ++ allJsonIn dirPath rest

/-! ## Concrete sample data -/

/-- A sample day entry published on 2024-06-10. -/
def item610 : ContentItem :=
  { suggested_title := "Morning Routine Magic"
    pillar := "Daily Adventures & Exploration"
    content_type := "vlog"
    video_length := "8-12 minutes"
    day := "monday"
    date := ⟨2024, 6, 10⟩
    publishing_time := "9:00 AM"
    secondary_focus := "family fun" }

/-- A one-day weekly plan around `item610`. -/
def plan610 : WeeklyPlan :=
  { week_start := ⟨2024, 6, 10⟩
    week_end := ⟨2024, 6, 16⟩
    content_schedule := [("monday", item610)] }

/-- `item610` with an explicit plan-specified publish time. -/
def item7 : ContentItem := { item610 with publishing_time := "12:00" }

/-- A one-day weekly plan whose monday entry specifies publish time 12:00. -/
def plan7 : WeeklyPlan :=
  { week_start := ⟨2024, 6, 10⟩
    week_end := ⟨2024, 6, 16⟩
    content_schedule := [("monday", item7)] }

/-- A sample step handler that fails exactly on the script step. -/
def handlerW : WorkflowStep → Except String Nat := fun s =>
  match s with
  | WorkflowStep.generate_scripts => Except.error "boom"
  | _ => Except.ok 1

/-- The argparse namespace with every parser default. -/
def argsDefault : Args :=
  { generate_ideas := false
    generate_scripts := false
    quality_check := false
    generate_metadata := false
    batch_process := false
    create_schedule := false
    pillar := none
    category := none
    subcategory := none
    baby_age := "8 months"
    theme_based := false
    weekly_plan := false
    start_date := none
    idea_count := 5
    script_count := 3
    batch_file := none
    script_dir := none
    output_dir := "generated-content"
    continue_on_error := false
    log_level := "INFO"
    dry_run := false }

/-- A two-step workflow configuration aborting on first failure. -/
def cfgAbort : WorkflowConfig :=
  { steps := [WorkflowStep.generate_scripts, WorkflowStep.quality_check]
    input_params := argsDefault
    output_dir := "generated-content"
    continue_on_error := false
    log_level := "INFO"
    dry_run := false }

/-- `cfgAbort` with `continue_on_error` set. -/
def cfgContinue : WorkflowConfig := { cfgAbort with continue_on_error := true }

/-- A sample script generator failing on pillar `"bad"`. -/
def genSample : String → String → String → String → List (String × String) →
    Except String Unit :=
  fun p _ _ _ _ => if p = "bad" then Except.error "provider down" else Except.ok ()

/-- A sample idea generator that always succeeds. -/
def ideaSample : Option String → Option String → Option String → Bool →
    Except String Unit :=
  fun _ _ _ _ => Except.ok ()

/-- A work item `genSample` accepts. -/
def itemGood : WorkItem :=
  { title := some "Good"
    pillar := some "pillar_1"
    category := some "cat"
    subcategory := some "sub"
    baby_age := none
    theme_based := none
    filename := some "good.json"
    custom_params := [] }

/-- A work item `genSample` rejects. -/
def itemBad : WorkItem :=
  { title := some "Bad"
    pillar := some "bad"
    category := some "cat"
    subcategory := some "sub"
    baby_age := none
    theme_based := none
    filename := none
    custom_params := [] }

/-- A two-item scripts batch configuration. -/
def batchCfgSample : BatchConfigDict :=
  { items := some [itemGood, itemBad]
    type := some "scripts"
    max_workers := some 4
    continue_on_error := some true
    output_dir := "out" }

/-- A batch configuration without the items key. -/
def cfgNoItems : BatchConfigDict :=
  { items := none, type := none, max_workers := none, continue_on_error := none,
    output_dir := "out" }

/-- A batch configuration with an empty items list. -/
def cfgEmptyItems : BatchConfigDict :=
  { items := some [], type := none, max_workers := none, continue_on_error := none,
    output_dir := "out" }

/-- A batch configuration with an unknown process type. -/
def cfgBadType : BatchConfigDict :=
  { items := some [itemGood], type := some "videos", max_workers := none,
    continue_on_error := none, output_dir := "out" }

/-- A batch configuration without a type key. -/
def cfgNoType : BatchConfigDict :=
  { items := some [itemGood], type := none, max_workers := none,
    continue_on_error := none, output_dir := "out" }

/-- `cfgNoType` with the type key set to scripts. -/
def cfgScriptsType : BatchConfigDict := { cfgNoType with type := some "scripts" }

/-- A sample result list: one success, one failure message repeated twice. -/
def resultsSample : List BatchResult :=
  [ { status := "success", item := itemGood, filename := some "good.json",
      filepath := some "out/good.json", timestamp := 0,
      message := "Script generated successfully" },
    { status := "error", item := itemBad, filename := none, filepath := none,
      timestamp := 0, message := "Error processing item: provider down" },
    { status := "error", item := itemBad, filename := none, filepath := none,
      timestamp := 0, message := "Error processing item: provider down" } ]

/-! ## Theorems -/

/-- In a key-Nodup association list holding `(day, b)`, exactly one entry
has key `day`. -/
theorem countP_keys_eq_one {β : Type} (l : List (String × β)) (day : String) (b : β)
    (hmem : (day, b) ∈ l) (hnodup : (l.map Prod.fst).Nodup) :
    l.countP (fun e => e.1 == day) = 1 := by
  induction l with
  | nil => cases hmem
  | cons hd tl ih =>
    simp only [List.map_cons, List.nodup_cons] at hnodup
    rw [List.countP_cons]
    rcases List.mem_cons.mp hmem with heq | htl
    · subst heq
      have hzero : tl.countP (fun e => e.1 == day) = 0 := by
        rw [List.countP_eq_zero]
        intro e he
        have : e.1 ≠ day := by
          intro hc
          have hm : e.1 ∈ tl.map Prod.fst := List.mem_map_of_mem Prod.fst he
          rw [hc] at hm
          exact hnodup.1 hm
        simpa using this
      simp [hzero]
    · have hne : hd.1 ≠ day := by
        intro hc
        have hm : day ∈ tl.map Prod.fst := List.mem_map_of_mem Prod.fst htl
        rw [← hc] at hm
        exact hnodup.1 hm
      simp [ih htl hnodup.2, hne]

/-- Claim C6: every day entry of a weekly plan yields exactly one
publishing-schedule entry and exactly three reminders, dated publish − 3,
publish − 1 and the publish date, with `days_until` 3, 1 and 0. -/
theorem C6_one_entry_three_reminders (t : Nat) (plan : WeeklyPlan) (day : String)
    (content : ContentItem)
    (hmem : (day, content) ∈ plan.content_schedule)
    (hnodup : (plan.content_schedule.map Prod.fst).Nodup)
    (hv : content.date.Valid) (h4 : 4 ≤ content.date.toOrdinal) :
    (create_publishing_schedule t plan).publishing_schedule.countP
      (fun e => e.1 == day) = 1 ∧
    (create_publishing_schedule t plan).reminders =
      plan.content_schedule.flatMap (fun dc => remindersFor dc.2) ∧
    remindersFor content =
      [ { date := content.date.subDays 3, type := "publishing_reminder",
          content := content.suggested_title, days_until := 3 },
        { date := content.date.subDays 1, type := "publishing_reminder",
          content := content.suggested_title, days_until := 1 },
        { date := content.date, type := "publishing_reminder",
          content := content.suggested_title, days_until := 0 } ] := by
  refine ⟨?_, rfl, ?_⟩
  · have h1 : (plan.content_schedule.map
        (fun dc => (dc.1, scheduleEntryFor dc.1 dc.2))).countP
        (fun e => e.1 == day) =
        plan.content_schedule.countP (fun dc => dc.1 == day) :=
      List.countP_map _ _ _
    have h2 : plan.content_schedule.countP (fun dc => dc.1 == day) = 1 :=
      countP_keys_eq_one plan.content_schedule day content hmem hnodup
    simpa [create_publishing_schedule, h1] using h2
  · have h3 := (subDays_valid_ordinal content.date 3 hv (by omega)).2
    have h1b := (subDays_valid_ordinal content.date 1 hv (by omega)).2
    have e3 : (content.date.toOrdinal : Int)
        - ((content.date.subDays 3).toOrdinal : Int) = 3 := by omega
    have e1 : (content.date.toOrdinal : Int)
        - ((content.date.subDays 1).toOrdinal : Int) = 1 := by omega
    simp only [remindersFor, e3, e1, sub_self]

/-- Witness for C6 at the concrete plan `plan610`: publish date 2024-06-10
gives reminders on 2024-06-07, 2024-06-09 and 2024-06-10 with
`days_until` 3, 1, 0, and one schedule entry for monday. -/
theorem C6_one_entry_three_reminders_witness :
    (("monday", item610) ∈ plan610.content_schedule ∧
      (plan610.content_schedule.map Prod.fst).Nodup ∧
      item610.date.Valid ∧ 4 ≤ item610.date.toOrdinal) ∧
    remindersFor item610 =
      [ { date := ⟨2024, 6, 7⟩, type := "publishing_reminder",
          content := "Morning Routine Magic", days_until := 3 },
        { date := ⟨2024, 6, 9⟩, type := "publishing_reminder",
          content := "Morning Routine Magic", days_until := 1 },
        { date := ⟨2024, 6, 10⟩, type := "publishing_reminder",
          content := "Morning Routine Magic", days_until := 0 } ] ∧
    (create_publishing_schedule 0 plan610).publishing_schedule.countP
      (fun e => e.1 == "monday") = 1 := by
  have h := C6_one_entry_three_reminders 0 plan610 "monday" item610
    (by decide) (by decide) (by decide) (by decide)
  refine ⟨⟨by decide, by decide, by decide, by decide⟩, ?_, h.1⟩
  rw [h.2.2]
  decide

/-- Counterexample to claim C7 as stated: the monday entry of `plan7`
specifies publish time 12:00, yet the schedule entry uses the fixed
default 09:00. -/
theorem C7_counterexample :
    plan7.content_schedule = [("monday", item7)] ∧
    item7.publishing_time = "12:00" ∧
    (create_publishing_schedule 0 plan7).publishing_schedule.map
      (fun e => (e.1, e.2.time)) = [("monday", "09:00")] := by
  decide

/-- Claim C7 (amended): every day entry's schedule entry uses the fixed
per-weekday publish time table (monday 09:00 … sunday 16:00, 14:00 for an
unrecognised day key), regardless of the publish time the plan itself
specifies for that day. -/
theorem C7_fixed_publish_time (t : Nat) (plan : WeeklyPlan) (day : String)
    (content : ContentItem) (hmem : (day, content) ∈ plan.content_schedule) :
    (day, scheduleEntryFor day content) ∈
      (create_publishing_schedule t plan).publishing_schedule ∧
    (scheduleEntryFor day content).time = publishTimes day := by
  constructor
  · simp only [create_publishing_schedule]
    exact List.mem_map.mpr ⟨(day, content), hmem, rfl⟩
  · rfl

/-- Witness for the amended C7 at `plan7`. -/
theorem C7_fixed_publish_time_witness :
    (("monday", item7) ∈ plan7.content_schedule) ∧
    ("monday", scheduleEntryFor "monday" item7) ∈
      (create_publishing_schedule 0 plan7).publishing_schedule ∧
    (scheduleEntryFor "monday" item7).time = publishTimes "monday" := by
  have h := C7_fixed_publish_time 0 plan7 "monday" item7 (by decide)
  exact ⟨by decide, h.1, h.2⟩

/-- Claim C8: schedule building is a pure, deterministic function of the
weekly plan — the result does not depend on the ambient clock, so two
calls on the same plan yield identical schedules (entries, calendar and
reminders alike), with no embedded generation timestamp. -/
theorem C8_schedule_deterministic (t1 t2 : Nat) (plan : WeeklyPlan) :
    create_publishing_schedule t1 plan = create_publishing_schedule t2 plan := rfl

/-- Running the step loop past a prefix of succeeding steps appends their
names to `completed_steps` and touches nothing else. -/
theorem runSteps_ok_prefix (handler : WorkflowStep → Except String α) (coe : Bool)
    (pre rest : List WorkflowStep) (st : WorkflowState α)
    (h : ∀ s ∈ pre, ∃ r, handler s = Except.ok r) :
    ∃ st2, runSteps handler coe (pre ++ rest) st = runSteps handler coe rest st2 ∧
      st2.completed_steps = st.completed_steps ++ pre.map WorkflowStep.value ∧
      st2.failed_steps = st.failed_steps ∧
      st2.start_time = st.start_time ∧
      st2.end_time = st.end_time := by
  induction pre generalizing st with
  | nil => exact ⟨st, by simp, by simp, rfl, rfl, rfl⟩
  | cons s pre ih =>
    obtain ⟨r, hr⟩ := h s (List.mem_cons_self s pre)
    obtain ⟨st2, h1, h2, h3, h4, h5⟩ :=
      ih { st with
            completed_steps := st.completed_steps ++ [s.value]
            step_results := st.step_results ++ [(s.value ++ "_results", r)] }
        (fun x hx => h x (List.mem_cons_of_mem s hx))
    refine ⟨st2, ?_, ?_, h3, h4, h5⟩
    · rw [List.cons_append]
      simpa [runSteps, hr] using h1
    · simp at h2
      simp [h2]

/-- With `continue_on_error` the step loop consumes every step, raises
nothing, and records one failure per failing handler. -/
theorem runSteps_continue (handler : WorkflowStep → Except String α)
    (steps : List WorkflowStep) (st : WorkflowState α) :
    (runSteps handler true steps st).2 = none ∧
    (runSteps handler true steps st).1.end_time = st.end_time ∧
    (runSteps handler true steps st).1.failed_steps.length =
      st.failed_steps.length + steps.countP (stepFails handler) := by
  induction steps generalizing st with
  | nil => simp [runSteps]
  | cons s rest ih =>
    cases hs : handler s with
    | ok r =>
      have h := ih { st with
        completed_steps := st.completed_steps ++ [s.value]
        step_results := st.step_results ++ [(s.value ++ "_results", r)] }
      simp only [runSteps, hs]
      refine ⟨h.1, h.2.1, ?_⟩
      rw [h.2.2, List.countP_cons]
      simp [stepFails, hs]
    | error e =>
      have h := ih { st with failed_steps := st.failed_steps ++ [(s.value, e)] }
      simp only [runSteps, hs, if_pos]
      refine ⟨h.1, h.2.1, ?_⟩
      rw [h.2.2, List.countP_cons]
      simp only [stepFails, hs]
      simp
      omega

/-- Claim C1: with `continue_on_error` false, a failure at step `k` stops
the pipeline — the failure is recorded and propagated, `end_time` is set,
the completed steps are exactly the `k` steps before the failing one, and
nothing after position `k` reaches `completed_steps` or `failed_steps`. -/
theorem C1_abort_on_failure (handler : WorkflowStep → Except String α)
    (cfg : WorkflowConfig) (k : Nat) (sk : WorkflowStep) (e : String)
    (hcoe : cfg.continue_on_error = false)
    (hk : cfg.steps[k]? = some sk)
    (hfail : handler sk = Except.error e)
    (hpre : ∀ s ∈ cfg.steps.take k, ∃ r, handler s = Except.ok r)
    (t1 t2 : Nat) :
    (execute_workflow handler cfg t1 t2 (initialState α)).2 = some e ∧
    (execute_workflow handler cfg t1 t2 (initialState α)).1.end_time = some t2 ∧
    (execute_workflow handler cfg t1 t2 (initialState α)).1.completed_steps =
      (cfg.steps.take k).map WorkflowStep.value ∧
    (execute_workflow handler cfg t1 t2 (initialState α)).1.failed_steps =
      [(sk.value, e)] := by
  obtain ⟨hlt, hget⟩ := List.getElem?_eq_some.mp hk
  have hsplit : cfg.steps = cfg.steps.take k ++ sk :: cfg.steps.drop (k + 1) := by
    rw [← hget, ← List.drop_eq_getElem_cons hlt, List.take_append_drop]
  obtain ⟨st2, hA, hComp, hFail, hStart, hEnd⟩ :=
    runSteps_ok_prefix handler cfg.continue_on_error (cfg.steps.take k)
      (sk :: cfg.steps.drop (k + 1))
      { initialState α with start_time := some t1 } hpre
  have hrun : runSteps handler cfg.continue_on_error cfg.steps
      { initialState α with start_time := some t1 } =
      ({ st2 with failed_steps := st2.failed_steps ++ [(sk.value, e)] }, some e) := by
    conv_lhs => rw [hsplit]
    rw [hA]
    simp [runSteps, hfail, hcoe]
  refine ⟨?_, ?_, ?_, ?_⟩
  · simp [execute_workflow, hrun]
  · simp [execute_workflow, hrun]
  · simp only [execute_workflow, hrun]
    simpa [initialState] using hComp
  · simp only [execute_workflow, hrun]
    simp [hFail, initialState]

/-- Witness for C1: the spec's scenario — steps
`[generate_scripts, quality_check]`, the script step fails,
`continue_on_error` false. -/
theorem C1_abort_on_failure_witness :
    (execute_workflow handlerW cfgAbort 0 1 (initialState Nat)).2 = some "boom" ∧
    (execute_workflow handlerW cfgAbort 0 1 (initialState Nat)).1.end_time = some 1 ∧
    (execute_workflow handlerW cfgAbort 0 1 (initialState Nat)).1.completed_steps =
      (cfgAbort.steps.take 0).map WorkflowStep.value ∧
    (execute_workflow handlerW cfgAbort 0 1 (initialState Nat)).1.failed_steps =
      [(WorkflowStep.generate_scripts.value, "boom")] :=
  C1_abort_on_failure handlerW cfgAbort 0 WorkflowStep.generate_scripts "boom"
    rfl rfl rfl (by simp) 0 1

/-- Claim C2: with `continue_on_error` true, `execute_workflow` raises
nothing, always records `end_time`, and `failed_steps` has one record per
step whose handler signalled failure. -/
theorem C2_continue_on_error (handler : WorkflowStep → Except String α)
    (cfg : WorkflowConfig) (hcoe : cfg.continue_on_error = true) (t1 t2 : Nat) :
    (execute_workflow handler cfg t1 t2 (initialState α)).2 = none ∧
    (execute_workflow handler cfg t1 t2 (initialState α)).1.end_time = some t2 ∧
    (execute_workflow handler cfg t1 t2 (initialState α)).1.failed_steps.length =
      cfg.steps.countP (stepFails handler) := by
  obtain ⟨h1, h2, h3⟩ :=
    runSteps_continue handler cfg.steps { initialState α with start_time := some t1 }
  rw [← hcoe] at h1 h3
  rcases hr : runSteps handler cfg.continue_on_error cfg.steps
      { initialState α with start_time := some t1 } with ⟨stf, exc⟩
  rw [hr] at h1 h3
  simp only at h1
  subst h1
  refine ⟨?_, ?_, ?_⟩
  · simp [execute_workflow, hr]
  · simp [execute_workflow, hr]
  · simp only [execute_workflow, hr]
    simpa [initialState] using h3

/-- Witness for C2: same two-step workflow with `continue_on_error` true;
exactly one step fails. -/
theorem C2_continue_on_error_witness :
    ((execute_workflow handlerW cfgContinue 0 1 (initialState Nat)).2 = none ∧
      (execute_workflow handlerW cfgContinue 0 1 (initialState Nat)).1.end_time =
        some 1 ∧
      (execute_workflow handlerW cfgContinue 0 1 (initialState Nat)).1.failed_steps.length =
        cfgContinue.steps.countP (stepFails handlerW)) ∧
    cfgContinue.steps.countP (stepFails handlerW) = 1 :=
  ⟨C2_continue_on_error handlerW cfgContinue rfl 0 1, by decide⟩

/-- Claim C10 (the code slip): for every parsed namespace the source's
`create_workflow_config` raises `TypeError`, because it passes keyword
`input_vars` to the generated `WorkflowConfig.__init__`, whose declared
parameter mapping field is named `input_params`. -/
theorem C10_create_config_raises (args : Args) :
    create_workflow_config args =
      Except.error "TypeError: unexpected keyword argument input_vars" := rfl

/-- Sequencing an `Except` success is application. -/
theorem except_bind_ok {ε α β : Type} (a : α) (f : α → Except ε β) :
    (Except.ok a : Except ε α) >>= f = f a := rfl

/-- Sequencing an `Except` failure keeps the failure. -/
theorem except_bind_error {ε α β : Type} (e : ε) (f : α → Except ε β) :
    (Except.error e : Except ε α) >>= f = Except.error e := rfl

/-- A string with a non-empty prefix is non-empty. -/
theorem append_ne_empty (s t : String) (h : s ≠ "") : s ++ t ≠ "" := by
  intro hc
  have hl := congrArg String.length hc
  rw [String.length_append] at hl
  have h0 : ("" : String).length = 0 := rfl
  have hs : s.length = 0 := by omega
  apply h
  cases s with
  | mk data =>
    cases data with
    | nil => rfl
    | cons a l =>
      have hx : (String.mk (a :: l)).length = l.length + 1 := rfl
      rw [hx] at hs
      exact absurd hs (Nat.succ_ne_zero l.length)

/-- Every script result is a success or error dict tagged with its item,
the clock value and a non-empty message. -/
theorem process_single_script_shape {σ : Type}
    (gen : String → String → String → String → List (String × String) →
      Except String σ)
    (output_dir : String) (now : Nat) (item : WorkItem) (index : Nat) :
    ((process_single_script gen output_dir now item index).status = "success" ∨
      (process_single_script gen output_dir now item index).status = "error") ∧
    (process_single_script gen output_dir now item index).item = item ∧
    (process_single_script gen output_dir now item index).timestamp = now ∧
    (process_single_script gen output_dir now item index).message ≠ "" := by
  cases h : scriptAttempt gen now item index with
  | ok filename =>
    simp [process_single_script, h]
  | error e =>
    simp [process_single_script, h]
    exact append_ne_empty "Error processing item: " e (by decide)

/-- Every idea result is a success or error dict tagged with its item,
the clock value and a non-empty message. -/
theorem process_single_idea_shape {ι : Type}
    (ideaGen : Option String → Option String → Option String → Bool →
      Except String ι)
    (output_dir : String) (now : Nat) (item : WorkItem) (index : Nat) :
    ((process_single_idea ideaGen output_dir now item index).status = "success" ∨
      (process_single_idea ideaGen output_dir now item index).status = "error") ∧
    (process_single_idea ideaGen output_dir now item index).item = item ∧
    (process_single_idea ideaGen output_dir now item index).timestamp = now ∧
    (process_single_idea ideaGen output_dir now item index).message ≠ "" := by
  cases h : ideaAttempt ideaGen now item index with
  | ok filename =>
    simp [process_single_idea, h]
  | error e =>
    simp [process_single_idea, h]
    exact append_ne_empty "Error generating idea: " e (by decide)

/-- A failing script try body is converted to the error result dict. -/
theorem process_single_script_error {σ : Type}
    (gen : String → String → String → String → List (String × String) →
      Except String σ)
    (output_dir : String) (now : Nat) (item : WorkItem) (index : Nat) (e : String)
    (h : scriptAttempt gen now item index = Except.error e) :
    (process_single_script gen output_dir now item index).status = "error" ∧
    (process_single_script gen output_dir now item index).message =
      "Error processing item: " ++ e := by
  simp [process_single_script, h]

/-- A succeeding script try body gives the success result dict. -/
theorem process_single_script_ok {σ : Type}
    (gen : String → String → String → String → List (String × String) →
      Except String σ)
    (output_dir : String) (now : Nat) (item : WorkItem) (index : Nat) (f : String)
    (h : scriptAttempt gen now item index = Except.ok f) :
    (process_single_script gen output_dir now item index).status = "success" := by
  simp [process_single_script, h]

/-- A failing idea try body is converted to the error result dict. -/
theorem process_single_idea_error {ι : Type}
    (ideaGen : Option String → Option String → Option String → Bool →
      Except String ι)
    (output_dir : String) (now : Nat) (item : WorkItem) (index : Nat) (e : String)
    (h : ideaAttempt ideaGen now item index = Except.error e) :
    (process_single_idea ideaGen output_dir now item index).status = "error" ∧
    (process_single_idea ideaGen output_dir now item index).message =
      "Error generating idea: " ++ e := by
  simp [process_single_idea, h]

/-- A succeeding idea try body gives the success result dict. -/
theorem process_single_idea_ok {ι : Type}
    (ideaGen : Option String → Option String → Option String → Bool →
      Except String ι)
    (output_dir : String) (now : Nat) (item : WorkItem) (index : Nat) (f : String)
    (h : ideaAttempt ideaGen now item index = Except.ok f) :
    (process_single_idea ideaGen output_dir now item index).status = "success" := by
  simp [process_single_idea, h]

/-- With `continue_on_error` the collection loop keeps every result. -/
theorem collectResults_continue (processor : WorkItem → Nat → BatchResult)
    (l : List (Nat × WorkItem)) :
    collectResults processor true l = l.map (fun p => processor p.2 p.1) := by
  induction l with
  | nil => rfl
  | cons hd tl ih =>
    obtain ⟨i, item⟩ := hd
    by_cases h : (processor item i).status = "success" <;>
      simp [collectResults, h, ih]

/-- Claim C3: a valid batch configuration with `continue_on_error` yields
exactly one result per item, in submission indexing, each a success or
error dict carrying its item, a timestamp and a non-empty message;
item-handler failures never escape `process_batch`, and per item a
failing handler (try body) is converted to the error result carrying its
message while a succeeding one gives the success result. -/
theorem C3_one_result_per_item {σ ι : Type}
    (gen : String → String → String → String → List (String × String) →
      Except String σ)
    (ideaGen : Option String → Option String → Option String → Bool →
      Except String ι)
    (now : Nat) (cfg : BatchConfigDict) (items : List WorkItem)
    (hitems : cfg.items = some items) (hne : items ≠ [])
    (hcoe : cfg.continue_on_error.getD true = true)
    (htype : cfg.type.getD "scripts" = "scripts" ∨
      cfg.type.getD "scripts" = "ideas") :
    ∃ results, process_batch gen ideaGen now cfg = Except.ok results ∧
      results.length = items.length ∧
      (∀ i (hi : i < items.length) (hi2 : i < results.length),
        (results.get ⟨i, hi2⟩).item = items.get ⟨i, hi⟩ ∧
        ((results.get ⟨i, hi2⟩).status = "success" ∨
          (results.get ⟨i, hi2⟩).status = "error") ∧
        (results.get ⟨i, hi2⟩).timestamp = now ∧
        (results.get ⟨i, hi2⟩).message ≠ "") ∧
      (cfg.type.getD "scripts" = "scripts" →
        ∀ i (hi : i < items.length) (hi2 : i < results.length),
          (∀ e, scriptAttempt gen now (items.get ⟨i, hi⟩) i = Except.error e →
            (results.get ⟨i, hi2⟩).status = "error" ∧
            (results.get ⟨i, hi2⟩).message = "Error processing item: " ++ e) ∧
          (∀ f, scriptAttempt gen now (items.get ⟨i, hi⟩) i = Except.ok f →
            (results.get ⟨i, hi2⟩).status = "success")) ∧
      (cfg.type.getD "scripts" = "ideas" →
        ∀ i (hi : i < items.length) (hi2 : i < results.length),
          (∀ e, ideaAttempt ideaGen now (items.get ⟨i, hi⟩) i = Except.error e →
            (results.get ⟨i, hi2⟩).status = "error" ∧
            (results.get ⟨i, hi2⟩).message = "Error generating idea: " ++ e) ∧
          (∀ f, ideaAttempt ideaGen now (items.get ⟨i, hi⟩) i = Except.ok f →
            (results.get ⟨i, hi2⟩).status = "success")) := by
  rcases htype with ht | ht
  · refine ⟨(items.enum).map
      (fun p => process_single_script gen cfg.output_dir now p.2 p.1),
      ?_, ?_, ?_, ?_, ?_⟩
    · simp [process_batch, hitems, hne, ht, hcoe, collectResults_continue,
        except_bind_ok, except_bind_error]
    · simp [List.enum_length]
    · intro i hi hi2
      have hr : ((items.enum).map
          (fun p => process_single_script gen cfg.output_dir now p.2 p.1)).get
            ⟨i, hi2⟩ =
          process_single_script gen cfg.output_dir now (items.get ⟨i, hi⟩) i := by
        simp [List.get_eq_getElem, List.getElem_map, List.getElem_enum]
      rw [hr]
      have hs := process_single_script_shape gen cfg.output_dir now
        (items.get ⟨i, hi⟩) i
      exact ⟨hs.2.1, hs.1, hs.2.2.1, hs.2.2.2⟩
    · intro _ i hi hi2
      have hr : ((items.enum).map
          (fun p => process_single_script gen cfg.output_dir now p.2 p.1)).get
            ⟨i, hi2⟩ =
          process_single_script gen cfg.output_dir now (items.get ⟨i, hi⟩) i := by
        simp [List.get_eq_getElem, List.getElem_map, List.getElem_enum]
      rw [hr]
      exact ⟨fun e he =>
          process_single_script_error gen cfg.output_dir now (items.get ⟨i, hi⟩) i e he,
        fun f hf =>
          process_single_script_ok gen cfg.output_dir now (items.get ⟨i, hi⟩) i f hf⟩
    · intro hc
      rw [ht] at hc
      exact absurd hc (by decide)
  · refine ⟨(items.enum).map
      (fun p => process_single_idea ideaGen cfg.output_dir now p.2 p.1),
      ?_, ?_, ?_, ?_, ?_⟩
    · simp [process_batch, hitems, hne, ht, hcoe, collectResults_continue,
        except_bind_ok, except_bind_error]
    · simp [List.enum_length]
    · intro i hi hi2
      have hr : ((items.enum).map
          (fun p => process_single_idea ideaGen cfg.output_dir now p.2 p.1)).get
            ⟨i, hi2⟩ =
          process_single_idea ideaGen cfg.output_dir now (items.get ⟨i, hi⟩) i := by
        simp [List.get_eq_getElem, List.getElem_map, List.getElem_enum]
      rw [hr]
      have hs := process_single_idea_shape ideaGen cfg.output_dir now
        (items.get ⟨i, hi⟩) i
      exact ⟨hs.2.1, hs.1, hs.2.2.1, hs.2.2.2⟩
    · intro hc
      rw [ht] at hc
      exact absurd hc (by decide)
    · intro _ i hi hi2
      have hr : ((items.enum).map
          (fun p => process_single_idea ideaGen cfg.output_dir now p.2 p.1)).get
            ⟨i, hi2⟩ =
          process_single_idea ideaGen cfg.output_dir now (items.get ⟨i, hi⟩) i := by
        simp [List.get_eq_getElem, List.getElem_map, List.getElem_enum]
      rw [hr]
      exact ⟨fun e he =>
          process_single_idea_error ideaGen cfg.output_dir now (items.get ⟨i, hi⟩) i e he,
        fun f hf =>
          process_single_idea_ok ideaGen cfg.output_dir now (items.get ⟨i, hi⟩) i f hf⟩

/-- Witness for C3 at a concrete two-item scripts batch in which the
provider fails on the second item: the first item's try body succeeds,
the second fails with the provider message, which the theorem converts
to a success and an error result respectively. -/
theorem C3_one_result_per_item_witness :
    (batchCfgSample.items = some [itemGood, itemBad] ∧
      [itemGood, itemBad] ≠ ([] : List WorkItem) ∧
      batchCfgSample.continue_on_error.getD true = true ∧
      batchCfgSample.type.getD "scripts" = "scripts") ∧
    (∃ f, scriptAttempt genSample 0 itemGood 0 = Except.ok f) ∧
    scriptAttempt genSample 0 itemBad 1 = Except.error "provider down" ∧
    (∃ results,
      process_batch genSample ideaSample 0 batchCfgSample = Except.ok results ∧
      results.length = ([itemGood, itemBad] : List WorkItem).length ∧
      (∀ i (hi : i < ([itemGood, itemBad] : List WorkItem).length)
        (hi2 : i < results.length),
        (results.get ⟨i, hi2⟩).item = ([itemGood, itemBad] : List WorkItem).get ⟨i, hi⟩ ∧
        ((results.get ⟨i, hi2⟩).status = "success" ∨
          (results.get ⟨i, hi2⟩).status = "error") ∧
        (results.get ⟨i, hi2⟩).timestamp = 0 ∧
        (results.get ⟨i, hi2⟩).message ≠ "") ∧
      (batchCfgSample.type.getD "scripts" = "scripts" →
        ∀ i (hi : i < ([itemGood, itemBad] : List WorkItem).length)
          (hi2 : i < results.length),
          (∀ e, scriptAttempt genSample 0
              (([itemGood, itemBad] : List WorkItem).get ⟨i, hi⟩) i =
                Except.error e →
            (results.get ⟨i, hi2⟩).status = "error" ∧
            (results.get ⟨i, hi2⟩).message = "Error processing item: " ++ e) ∧
          (∀ f, scriptAttempt genSample 0
              (([itemGood, itemBad] : List WorkItem).get ⟨i, hi⟩) i =
                Except.ok f →
            (results.get ⟨i, hi2⟩).status = "success")) ∧
      (batchCfgSample.type.getD "scripts" = "ideas" →
        ∀ i (hi : i < ([itemGood, itemBad] : List WorkItem).length)
          (hi2 : i < results.length),
          (∀ e, ideaAttempt ideaSample 0
              (([itemGood, itemBad] : List WorkItem).get ⟨i, hi⟩) i =
                Except.error e →
            (results.get ⟨i, hi2⟩).status = "error" ∧
            (results.get ⟨i, hi2⟩).message = "Error generating idea: " ++ e) ∧
          (∀ f, ideaAttempt ideaSample 0
              (([itemGood, itemBad] : List WorkItem).get ⟨i, hi⟩) i =
                Except.ok f →
            (results.get ⟨i, hi2⟩).status = "success"))) :=
  ⟨⟨rfl, by decide, rfl, rfl⟩, ⟨_, rfl⟩, rfl,
    C3_one_result_per_item genSample ideaSample 0 batchCfgSample
      [itemGood, itemBad] rfl (by decide) rfl (Or.inl rfl)⟩

/-- Claim C4: the batch report's counts are consistent, the success rate
is `100 × successful / total` (0 on an empty batch), the error messages
are duplicate-free, and the file list is the filenames of exactly the
successful results. -/
theorem C4_report_properties (now : Nat) (results : List BatchResult)
    (hwf : ∀ r ∈ results, r.status = "success" → truthyStr r.filename = true) :
    (generate_batch_report now results).batch_summary.total_items =
      (generate_batch_report now results).batch_summary.successful_items +
      (generate_batch_report now results).batch_summary.failed_items ∧
    ((generate_batch_report now results).batch_summary.total_items = 0 →
      (generate_batch_report now results).batch_summary.success_rate = 0) ∧
    (0 < (generate_batch_report now results).batch_summary.total_items →
      (generate_batch_report now results).batch_summary.success_rate =
        100 * ((generate_batch_report now results).batch_summary.successful_items : ℚ)
          / ((generate_batch_report now results).batch_summary.total_items : ℚ)) ∧
    (generate_batch_report now results).error_summary.error_messages.Nodup ∧
    (generate_batch_report now results).file_list =
      (generate_batch_report now results).successful_results.filterMap
        (fun r => r.filename) ∧
    (generate_batch_report now results).successful_results =
      results.filter (fun r => r.status == "success") := by
  have hall : ∀ r ∈ results.filter (fun r => r.status == "success"),
      truthyStr r.filename = true := by
    intro r hr
    have hm := List.mem_filter.mp hr
    exact hwf r hm.1 (by simpa using hm.2)
  refine ⟨?_, ?_, ?_, ?_, ?_, rfl⟩
  · simp only [generate_batch_report]
    have hle := List.length_filter_le (fun r => r.status == "success") results
    omega
  · intro h0
    simp only [generate_batch_report] at h0 ⊢
    simp [h0]
  · intro hpos
    simp only [generate_batch_report] at hpos ⊢
    rw [if_pos hpos]
    ring
  · simp only [generate_batch_report]
    exact List.nodup_dedup _
  · simp only [generate_batch_report]
    rw [List.filter_eq_self.mpr hall]

/-- Witness for C4 at `resultsSample` (one success, one repeated error
message). -/
theorem C4_report_properties_witness :
    (∀ r ∈ resultsSample, r.status = "success" → truthyStr r.filename = true) ∧
    ((generate_batch_report 0 resultsSample).batch_summary.total_items =
      (generate_batch_report 0 resultsSample).batch_summary.successful_items +
      (generate_batch_report 0 resultsSample).batch_summary.failed_items ∧
    ((generate_batch_report 0 resultsSample).batch_summary.total_items = 0 →
      (generate_batch_report 0 resultsSample).batch_summary.success_rate = 0) ∧
    (0 < (generate_batch_report 0 resultsSample).batch_summary.total_items →
      (generate_batch_report 0 resultsSample).batch_summary.success_rate =
        100 * ((generate_batch_report 0 resultsSample).batch_summary.successful_items : ℚ)
          / ((generate_batch_report 0 resultsSample).batch_summary.total_items : ℚ)) ∧
    (generate_batch_report 0 resultsSample).error_summary.error_messages.Nodup ∧
    (generate_batch_report 0 resultsSample).file_list =
      (generate_batch_report 0 resultsSample).successful_results.filterMap
        (fun r => r.filename) ∧
    (generate_batch_report 0 resultsSample).successful_results =
      resultsSample.filter (fun r => r.status == "success")) :=
  ⟨by decide, C4_report_properties 0 resultsSample (by decide)⟩

/-- Claim C5: `process_batch` rejects a configuration lacking the items
key, with an empty items list, or with an unknown process type, before
any item is processed; an absent type key defaults to scripts. -/
theorem C5_validation {σ ι : Type}
    (gen : String → String → String → String → List (String × String) →
      Except String σ)
    (ideaGen : Option String → Option String → Option String → Bool →
      Except String ι)
    (now : Nat) (cfg : BatchConfigDict) :
    (cfg.items = none →
      process_batch gen ideaGen now cfg =
        Except.error "ValueError: Batch configuration must contain items key") ∧
    (cfg.items = some [] →
      process_batch gen ideaGen now cfg =
        Except.error "ValueError: Batch configuration must contain at least one item") ∧
    (∀ t items, cfg.type = some t → t ≠ "scripts" → t ≠ "ideas" →
      cfg.items = some items → items ≠ [] →
      process_batch gen ideaGen now cfg =
        Except.error ("ValueError: Unknown process type: " ++ t)) ∧
    (cfg.type = none →
      process_batch gen ideaGen now cfg =
        process_batch gen ideaGen now { cfg with type := some "scripts" }) := by
  refine ⟨?_, ?_, ?_, ?_⟩
  · intro h
    simp [process_batch, h, except_bind_ok, except_bind_error]
  · intro h
    simp [process_batch, h, except_bind_ok, except_bind_error]
  · intro t items h1 h2 h3 h4 h5
    simp [process_batch, h4, h5, h1, h2, h3, except_bind_ok, except_bind_error]
  · intro h
    rcases hitems : cfg.items with _ | its
    · simp [process_batch, hitems, except_bind_ok, except_bind_error]
    · by_cases hempty : its = []
      · simp [process_batch, hitems, hempty, except_bind_ok, except_bind_error]
      · simp [process_batch, hitems, hempty, h, except_bind_ok, except_bind_error]

/-- Witness for C5: the three rejections and the scripts default at
concrete configurations. -/
theorem C5_validation_witness :
    process_batch genSample ideaSample 0 cfgNoItems =
      Except.error "ValueError: Batch configuration must contain items key" ∧
    process_batch genSample ideaSample 0 cfgEmptyItems =
      Except.error "ValueError: Batch configuration must contain at least one item" ∧
    process_batch genSample ideaSample 0 cfgBadType =
      Except.error ("ValueError: Unknown process type: " ++ "videos") ∧
    process_batch genSample ideaSample 0 cfgNoType =
      process_batch genSample ideaSample 0 cfgScriptsType :=
  ⟨(C5_validation genSample ideaSample 0 cfgNoItems).1 rfl,
    (C5_validation genSample ideaSample 0 cfgEmptyItems).2.1 rfl,
    (C5_validation genSample ideaSample 0 cfgBadType).2.2.1 "videos" [itemGood]
      rfl (by decide) (by decide) rfl (by decide),
    (C5_validation genSample ideaSample 0 cfgNoType).2.2.2 rfl⟩

/-- Direct `.json` collection over a leading file entry. -/
theorem directJson_cons_file (d f : String) (rest : List FileTree) :
    directJson d (FileTree.file f :: rest) =
      (if f.endsWith ".json" then [osJoin d f] else []) ++ directJson d rest := by
  simp only [directJson, fileNames, List.filterMap_cons]
  rw [List.filter_cons]
  by_cases hf : f.endsWith ".json"
  · simp [hf]
  · simp [hf]

/-- Direct `.json` collection skips a leading directory entry. -/
theorem directJson_cons_dir (d n : String) (c rest : List FileTree) :
    directJson d (FileTree.dir n c :: rest) = directJson d rest := by
  simp [directJson, fileNames, List.filterMap_cons]

/-- Walking skips a leading file entry. -/
theorem walkSub_cons_file (d f : String) (tl : List FileTree) :
    walkSub d (FileTree.file f :: tl) = walkSub d tl := by
  simp only [walkSub]

/-- Walking a leading directory entry visits it depth first. -/
theorem walkSub_cons_dir (d nm : String) (c tl : List FileTree) :
    walkSub d (FileTree.dir nm c :: tl) =
      (directJson (osJoin d nm) c ++ walkSub (osJoin d nm) c) ++ walkSub d tl := by
  simp only [walkSub]

/-- Node collection over a leading file entry. -/
theorem allJsonIn_cons_file (d f : String) (tl : List FileTree) :
    allJsonIn d (FileTree.file f :: tl) =
      (if f.endsWith ".json" then [osJoin d f] else []) ++ allJsonIn d tl := by
  simp only [allJsonIn]

/-- Node collection over a leading directory entry. -/
theorem allJsonIn_cons_dir (d nm : String) (c tl : List FileTree) :
    allJsonIn d (FileTree.dir nm c :: tl) =
      allJsonIn (osJoin d nm) c ++ allJsonIn d tl := by
  simp only [allJsonIn]

/-- The walk and the node-by-node collection hold the same paths
(strong induction on the tree size). -/
theorem walk_mem_aux (bound : Nat) (d : String) (l : List FileTree) (p : String)
    (hle : sizeOf l ≤ bound) :
    (p ∈ directJson d l ++ walkSub d l ↔ p ∈ allJsonIn d l) := by
  induction bound generalizing d l with
  | zero =>
    exfalso
    cases l with
    | nil =>
      have hs := List.nil.sizeOf_spec (α := FileTree)
      omega
    | cons hd tl =>
      have hs := List.cons.sizeOf_spec hd tl
      omega
  | succ n ih =>
    cases l with
    | nil =>
      rw [show walkSub d [] = [] from by simp only [walkSub],
        show allJsonIn d [] = [] from by simp only [allJsonIn]]
      simp [directJson, fileNames]
    | cons hd tl =>
      cases hd with
      | file f =>
        have hrest : sizeOf tl ≤ n := by
          have hs := List.cons.sizeOf_spec (FileTree.file f) tl
          omega
        have hr := ih d tl hrest
        rw [directJson_cons_file, walkSub_cons_file, allJsonIn_cons_file,
          List.append_assoc]
        simp only [List.mem_append] at hr ⊢
        exact or_congr Iff.rfl hr
      | dir nm c =>
        have hs1 := List.cons.sizeOf_spec (FileTree.dir nm c) tl
        have hs2 := FileTree.dir.sizeOf_spec nm c
        have hrest : sizeOf tl ≤ n := by omega
        have hchild : sizeOf c ≤ n := by omega
        have hr := ih d tl hrest
        have hc := ih (osJoin d nm) c hchild
        rw [directJson_cons_dir, walkSub_cons_dir, allJsonIn_cons_dir]
        simp only [List.mem_append] at hr hc ⊢
        constructor
        · rintro (h1 | (h2 | h3) | h4)
          · exact Or.inr (hr.mp (Or.inl h1))
          · exact Or.inl (hc.mp (Or.inl h2))
          · exact Or.inl (hc.mp (Or.inr h3))
          · exact Or.inr (hr.mp (Or.inr h4))
        · rintro (h1 | h2)
          · rcases hc.mpr h1 with h | h
            · exact Or.inr (Or.inl (Or.inl h))
            · exact Or.inr (Or.inl (Or.inr h))
          · rcases hr.mpr h2 with h | h
            · exact Or.inl h
            · exact Or.inr (Or.inr h)

/-- Claim C9: the set of files `batch_evaluate_scripts` evaluates for a
script directory is exactly the set of `.json` files anywhere in the
directory tree rooted there — the `os.walk` collection recurses into
subdirectories. -/
theorem C9_quality_check_recurses (script_dir : String) (entries : List FileTree)
    (p : String) :
    p ∈ batchEvaluateJsonFiles script_dir entries ↔
      p ∈ allJsonIn script_dir entries :=
  walk_mem_aux (sizeOf entries) script_dir entries p le_rfl

end YoutubeIdeas
